import Mathlib

/-!
Verification of the row filtering, formatting and panel-state logic of
C1C-Matchmaker (src/bot_clanmatch_prefix.py), as a shallow embedding.

Conventions of the embedding:
* A spreadsheet row is a `List String` (gspread returns rows as flat
  string lists; cells are always strings, never `None`).
* Python `str.strip` / `str.upper` are modelled over ASCII; Python
  whitespace is modelled by `Char.isWhitespace`.
* `row[i]` is modelled by `List.getD row i ""` at call sites where a
  preceding length check in the source guarantees `i < row.length`, and
  by `List.get? row i` (with `none` playing `IndexError`) in functions
  that index without a bound check.
* Python's 60-second sheet cache is modelled with an explicit state
  record and an integer clock; the external `get_all_values` fetch is a
  parameter.
-/

/-- Python `s.strip()`: drop leading and trailing whitespace. -/
def pyStrip (s : String) : String :=
  String.mk (((s.toList.dropWhile Char.isWhitespace).reverse.dropWhile Char.isWhitespace).reverse)

/-- Python `s.upper()` (ASCII), via char lists so terms reduce in the kernel. -/
def pyUpper (s : String) : String :=
  String.mk (s.toList.map Char.toUpper)

/-- Python `needle in hay` (substring containment), via char lists. -/
def charsStartWith : List Char → List Char → Bool
  | [], _ => true
  | _ :: _, [] => false
  | n :: ns, h :: hs => n == h && charsStartWith ns hs

/-- Helper for `pyIn`: does `needle` occur inside `hay` as a contiguous run. -/
def charsContain (needle : List Char) : List Char → Bool
  | [] => needle.isEmpty
  | h :: hs => charsStartWith needle (h :: hs) || charsContain needle hs

/-- Python `needle in hay` for strings. -/
def pyIn (needle hay : String) : Bool :=
  charsContain needle.toList hay.toList

/-- Python truthiness of a `str | None` value: `None` and `""` are falsy. -/
def pyTruthy : Option String → Bool
  | none => false
  | some s => !(s == "")

/-- `norm` from the source: `(s or "").strip().upper()`. -/
def norm (s : String) : String :=
  pyUpper (pyStrip s)

/-- Models `row[i]` where the source has already checked `i < len(row)`. -/
def cellAt (row : List String) (i : Nat) : String :=
  row.getD i ""

/-- `is_header_row` from the source: detect header/label rows that look
like CLAN/TAG/Spots.  Columns: B = 1, C = 2, E = 4. -/
def is_header_row (row : List String) : Bool :=
  let b := if 1 < row.length then norm (cellAt row 1) else ""
  let c := if 2 < row.length then norm (cellAt row 2) else ""
  let e := if 4 < row.length then norm (cellAt row 4) else ""
  (b == "CLAN" || b == "CLAN NAME") || c == "TAG" || e == "SPOTS"

/-- `TOKEN_MAP` from the source. -/
def TOKEN_MAP : List (String × String) :=
  [("EASY", "ESY"), ("NORMAL", "NML"), ("HARD", "HRD"), ("BRUTAL", "BTL"),
   ("NM", "NM"), ("UNM", "UNM"), ("ULTRA-NIGHTMARE", "UNM")]

/-- `map_token` from the source: `TOKEN_MAP.get(norm(choice), norm(choice))`. -/
def map_token (choice : String) : String :=
  (TOKEN_MAP.lookup (norm choice)).getD (norm choice)

/-- `cell_has_diff` from the source. -/
def cell_has_diff (cell_text : String) (token : Option String) : Bool :=
  if pyTruthy token = false then true
  else
    let t := map_token (token.getD "")
    let c := norm cell_text
    pyIn t c || (t == "HRD" && pyIn "HARD" c) || (t == "NML" && pyIn "NORMAL" c)
      || (t == "BTL" && pyIn "BRUTAL" c)

/-- `cell_equals_10` from the source: exact 1/0 comparison, `None` passes. -/
def cell_equals_10 (cell_text : String) (expected : Option String) : Bool :=
  match expected with
  | none => true
  | some e => pyStrip cell_text == e

/-- `STYLE_CANON` from the source. -/
def STYLE_CANON : List (String × String) :=
  [("STRESS FREE", "STRESSFREE"), ("STRESS-FREE", "STRESSFREE"), ("STRESSFREE", "STRESSFREE"),
   ("CASUAL", "CASUAL"),
   ("SEMI COMPETITIVE", "SEMICOMPETITIVE"), ("SEMI-COMPETITIVE", "SEMICOMPETITIVE"),
   ("SEMICOMPETITIVE", "SEMICOMPETITIVE"), ("COMPETITIVE", "COMPETITIVE")]

/-- Python `s.replace("-", " ")`. -/
def pyReplaceDash (s : String) : String :=
  String.mk (s.toList.map (fun c => if c = '-' then ' ' else c))

/-- Helper for `re.sub(r"\s+", " ", s)`: collapse each whitespace run to
one space.  The flag records whether the previous char was whitespace. -/
def collapseWsAux : Bool → List Char → List Char
  | _, [] => []
  | prevWs, c :: cs =>
    if c.isWhitespace then
      if prevWs then collapseWsAux true cs else ' ' :: collapseWsAux true cs
    else c :: collapseWsAux false cs

/-- `re.sub(r"\s+", " ", s)` on a string. -/
def collapse_ws (s : String) : String :=
  String.mk (collapseWsAux false s.toList)

/-- `_canon_style` from the source (Lean name drops the underscore). -/
def canon_style (s : String) : Option String :=
  let s1 := pyUpper (pyStrip s)
  let s2 := collapse_ws (pyReplaceDash s1)
  match STYLE_CANON.lookup s2 with
  | some c => some c
  | none =>
    if s2 = "SEMI COMPETITIVE" then some "SEMICOMPETITIVE"
    else if s2 = "STRESS FREE" then some "STRESSFREE"
    else if s2 = "STRESSFREE" ∨ s2 = "CASUAL" ∨ s2 = "SEMICOMPETITIVE" ∨ s2 = "COMPETITIVE"
      then some s2
    else none

/-- Is `c` one of the style-cell delimiters of `re.split(r"[,\|/;]+", ...)`. -/
def isStyleDelim (c : Char) : Bool :=
  c == ',' || c == '|' || c == '/' || c == ';'

/-- `re.split(r"[,\|/;]+", s)` on a char list: split at each maximal
delimiter run; a leading (trailing) delimiter yields a leading (trailing)
empty token, exactly as `re.split` does. -/
def splitDelimRuns : List Char → List String
  | [] => [""]
  | c :: cs =>
    let r := splitDelimRuns cs
    if isStyleDelim c then
      match cs with
      | c2 :: _ => if isStyleDelim c2 then r else "" :: r
      | [] => "" :: r
    else
      match r with
      | [] => [String.mk [c]]
      | t :: ts => String.mk (c :: t.toList) :: ts

/-- `_split_styles` from the source.  The Python `set` is modelled as a
list; membership is the only operation the source performs on it. -/
def split_styles (cell_text : String) : List String :=
  (splitDelimRuns cell_text.toList).filterMap canon_style

/-- `playstyle_ok` from the source. -/
def playstyle_ok (cell_text : String) (value : Option String) : Bool :=
  if pyTruthy value = false then true
  else
    match canon_style (value.getD "") with
    | none => true
    | some wanted => (split_styles cell_text).contains wanted

/-- `row_matches` from the source.  Column indices: B = 1, P = 15, Q = 16,
R = 17, S = 18, T = 19, U = 20; `IDX_AB = 27`. -/
def row_matches (row : List String)
    (cb hydra chimera cvc siege playstyle : Option String) : Bool :=
  if row.length ≤ 27 then false
  else if is_header_row row then false
  else if pyStrip (cellAt row 1) = "" then false
  else
    cell_has_diff (cellAt row 15) cb &&
    cell_has_diff (cellAt row 16) hydra &&
    cell_has_diff (cellAt row 17) chimera &&
    cell_equals_10 (cellAt row 18) cvc &&
    cell_equals_10 (cellAt row 19) siege &&
    playstyle_ok (cellAt row 20) playstyle

/-- `parse_spots_num` from the source: `int` of the first digit run found
by `re.search(r"\d+", ...)`, else 0. -/
def firstDigitRun : List Char → List Char
  | [] => []
  | c :: cs => if c.isDigit then (c :: cs).takeWhile Char.isDigit else firstDigitRun cs

/-- `parse_spots_num` from the source. -/
def parse_spots_num (cell_text : String) : Nat :=
  let run := firstDigitRun cell_text.toList
  if run.isEmpty then 0 else ((String.mk run).toNat?).getD 0

/-- The six per-column filter values of a panel, bundled.  In the source
they are the attributes `cb, hydra, chimera, cvc, siege, playstyle` of
`ClanMatchView`, each a `str | None`. -/
structure Filters where
  cb : Option String
  hydra : Option String
  chimera : Option String
  cvc : Option String
  siege : Option String
  playstyle : Option String
deriving DecidableEq

/-- The roster-mode spots check of `ClanMatchView.search` and
`_maybe_refresh`: `continue` (exclude) when roster mode is "open" and
spots ≤ 0, or roster mode is "full" and spots > 0. -/
def roster_excludes (roster_mode : Option String) (row : List String) : Bool :=
  let spots := parse_spots_num (cellAt row 4)
  if roster_mode = some "open" ∧ spots ≤ 0 then true
  else if roster_mode = some "full" ∧ spots > 0 then true
  else false

/-- The match-collection loop shared by `ClanMatchView.search` and
`ClanMatchView._maybe_refresh` (iterating `rows[1:]`, skipping header
rows, keeping rows that pass `row_matches` and the roster check). -/
def collect_matches (rows : List (List String)) (f : Filters)
    (roster_mode : Option String) : List (List String) :=
  match rows with
  | [] => []
  | row :: rest =>
    if is_header_row row then collect_matches rest f roster_mode
    else if row_matches row f.cb f.hydra f.chimera f.cvc f.siege f.playstyle then
      if roster_excludes roster_mode row then collect_matches rest f roster_mode
      else row :: collect_matches rest f roster_mode
    else collect_matches rest f roster_mode

/-- Declarative form of the strict row filter, for stating claims. -/
def strict_filter (rows : List (List String)) (f : Filters)
    (roster_mode : Option String) : List (List String) :=
  (rows.drop 1).filter (fun row =>
    !is_header_row row
      && row_matches row f.cb f.hydra f.chimera f.cvc f.siege f.playstyle
      && !roster_excludes roster_mode row)

/-- The `any([...])` guard at the top of `ClanMatchView.search`: at least
one filter truthy, or roster mode not `None`. -/
def any_filter_set (f : Filters) (roster_mode : Option String) : Bool :=
  pyTruthy f.cb || pyTruthy f.hydra || pyTruthy f.chimera || pyTruthy f.cvc
    || pyTruthy f.siege || pyTruthy f.playstyle || roster_mode.isSome

/-- What `ClanMatchView.search` reports: the pick-a-filter nag, the
"No matching clans found" message, or the matched rows it posts. -/
inductive SearchOutcome where
  | pickAtLeastOne : SearchOutcome
  | noMatches : SearchOutcome
  | results : List (List String) → SearchOutcome
deriving DecidableEq

/-- The reporting behaviour of `ClanMatchView.search` (after
`get_rows` returned `rows`): guard, collect, then either the no-matches
message or the matches that get formatted and posted. -/
def search_outcome (rows : List (List String)) (f : Filters)
    (roster_mode : Option String) : SearchOutcome :=
  if any_filter_set f roster_mode = false then .pickAtLeastOne
  else
    let ms := collect_matches (rows.drop 1) f roster_mode
    if ms.isEmpty then .noMatches else .results ms

/-- What `ClanMatchView._maybe_refresh` does to the results message. -/
inductive RefreshOutcome where
  | notApplicable : RefreshOutcome
  | clearedNoMatches : RefreshOutcome
  | updated : List (List String) → RefreshOutcome
deriving DecidableEq

/-- The reporting behaviour of `ClanMatchView._maybe_refresh`: bail out
unless the panel is the classic variant with an existing results message;
otherwise re-run the filter and either clear the message ("No matching
clans with current filters") or update it with the matches. -/
def maybe_refresh_outcome (embed_variant : String) (has_results_message : Bool)
    (rows : List (List String)) (f : Filters) (roster_mode : Option String) :
    RefreshOutcome :=
  if embed_variant ≠ "classic" then .notApplicable
  else if has_results_message = false then .notApplicable
  else
    let ms := collect_matches (rows.drop 1) f roster_mode
    if ms.isEmpty then .clearedNoMatches else .updated ms

/-- Modelled from the spec: the "broader substring search across all
fields" fallback the spec says runs when the strict match yields zero
rows.  No such fallback exists anywhere in src/ — `ClanMatchView.search`
and `_maybe_refresh` report no matches instead — so this definition
follows the spec's words (normalized substring containment over every
cell of every row) purely for comparison with the code's behaviour. -/
def fallback_substring_search (rows : List (List String)) (q : String) :
    List (List String) :=
  rows.filter (fun row => row.any (fun c => pyIn (norm q) (norm c)))

/-- `CACHE_TTL` from the source (seconds). -/
def CACHE_TTL : Int := 60

/-- The module-level cache state `_cache_rows` / `_cache_time` of the
Sheets reader. -/
structure SheetsCache where
  cache_rows : Option (List (List String))
  cache_time : Int
deriving DecidableEq

/-- `get_rows` from the source.  `now` models `time.time()` (both calls in
the body are modelled by the same instant), `fetched` models the external
`ws.get_all_values()` result.  Returns the rows, the new cache state, and
whether a spreadsheet fetch occurred. -/
def get_rows (st : SheetsCache) (force : Bool) (now : Int)
    (fetched : List (List String)) :
    List (List String) × SheetsCache × Bool :=
  if force || st.cache_rows.isNone || decide (now - st.cache_time > CACHE_TTL) then
    (fetched, ⟨some fetched, now⟩, true)
  else
    (st.cache_rows.getD [], st, false)

/-- `PAGE_SIZE` from the source: results per page for multi-card output. -/
def PAGE_SIZE : Nat := 10

/-- A Discord embed, reduced to the fields this code sets: title,
description, footer text.  An unset footer is modelled as `""`, matching
the source's own `last.footer.text or ""` convention.  Thumbnails depend
on the guild's emoji list and an external image proxy and are outside
this model. -/
structure Embed where
  title : String
  description : String
  footer : String
deriving DecidableEq

/-- Python slice `l[s:e]`. -/
def pySlice {α : Type} (l : List α) (s e : Nat) : List α :=
  (l.take e).drop s

/-- `_page_embeds` from the source (Lean name drops the underscore):
build up to `PAGE_SIZE` embeds for the given page and append the page
info to the last card's footer.  `builder` stands for the
`make_embed_for_row_*` function passed in (the guild argument only
affects thumbnails and is dropped).  `math.ceil(len(rows)/PAGE_SIZE)` is
exact on these integers and is modelled by Nat ceiling division. -/
def page_embeds (rows : List (List String)) (page_index : Nat)
    (builder : List String → String → Embed) (filters_text : String) :
    List Embed :=
  let start := page_index * PAGE_SIZE
  let stop := min rows.length (start + PAGE_SIZE)
  let slice := pySlice rows start stop
  let embeds := slice.map (fun r => builder r filters_text)
  match embeds.getLast? with
  | none => embeds
  | some last =>
    let total_pages := max 1 ((rows.length + PAGE_SIZE - 1) / PAGE_SIZE)
    let page_info := "Page " ++ toString (page_index + 1) ++ "/"
      ++ toString total_pages ++ " • " ++ toString rows.length ++ " total"
    embeds.dropLast
      ++ [{ last with
            footer := if last.footer = "" then page_info
                      else last.footer ++ " • " ++ page_info }]

/-- The page-information string of `_page_embeds`, for stating the claim:
"Page p+1/T • N total" with T = max(1, ceil(N / PAGE_SIZE)). -/
def page_info_text (rows : List (List String)) (page_index : Nat) : String :=
  "Page " ++ toString (page_index + 1) ++ "/"
    ++ toString (max 1 ((rows.length + PAGE_SIZE - 1) / PAGE_SIZE))
    ++ " • " ++ toString rows.length ++ " total"

/-- How `_page_embeds` extends a footer with the page information. -/
def with_page_info (e : Embed) (info : String) : Embed :=
  { e with footer := if e.footer = "" then info else e.footer ++ " • " ++ info }

/-- `NBSP_PIPE` from `build_entry_criteria_classic`: a non-breaking-space
pipe separator. -/
def NBSP_PIPE : String := " | "

/-- `build_entry_criteria_classic` from the source.  Cells V–AB are
indices 21–27; `row[i]` is unchecked there, so the result is `none` when
an index is out of range (Python `IndexError`). -/
def build_entry_criteria_classic (row : List String) : Option String := do
  let v0 ← row.get? 21
  let w0 ← row.get? 22
  let x0 ← row.get? 23
  let y0 ← row.get? 24
  let z0 ← row.get? 25
  let aa0 ← row.get? 26
  let ab0 ← row.get? 27
  let v := pyStrip v0
  let w := pyStrip w0
  let x := pyStrip x0
  let y := pyStrip y0
  let z := pyStrip z0
  let aa := pyStrip aa0
  let ab := pyStrip ab0
  let parts : List String :=
    (if v ≠ "" then ["Hydra keys: " ++ v] else [])
    ++ (if w ≠ "" then ["Chimera keys: " ++ w] else [])
    ++ (if x ≠ "" then [x] else [])
    ++ (if y ≠ "" then [y] else [])
    ++ (if z ≠ "" then [z] else [])
    ++ (if aa ≠ "" then ["non PR CvC: " ++ aa] else [])
    ++ (if ab ≠ "" then ["PR CvC: " ++ ab] else [])
  return "**Entry Criteria:** "
    ++ (if parts = [] then "—" else String.intercalate NBSP_PIPE parts)

/-- The labeled non-blank parts of the entry criteria line, in the fixed
order V, W, X, Y, Z, AA, AB, as the claim states them. -/
def entry_criteria_parts (row : List String) : List String :=
  ([ (if pyStrip (cellAt row 21) ≠ "" then some ("Hydra keys: " ++ pyStrip (cellAt row 21)) else none),
     (if pyStrip (cellAt row 22) ≠ "" then some ("Chimera keys: " ++ pyStrip (cellAt row 22)) else none),
     (if pyStrip (cellAt row 23) ≠ "" then some (pyStrip (cellAt row 23)) else none),
     (if pyStrip (cellAt row 24) ≠ "" then some (pyStrip (cellAt row 24)) else none),
     (if pyStrip (cellAt row 25) ≠ "" then some (pyStrip (cellAt row 25)) else none),
     (if pyStrip (cellAt row 26) ≠ "" then some ("non PR CvC: " ++ pyStrip (cellAt row 26)) else none),
     (if pyStrip (cellAt row 27) ≠ "" then some ("PR CvC: " ++ pyStrip (cellAt row 27)) else none) ]
  ).filterMap id

/-- The entry criteria line as the claim describes it. -/
def entry_criteria_spec (row : List String) : String :=
  "**Entry Criteria:** "
    ++ (if entry_criteria_parts row = [] then "—"
        else String.intercalate NBSP_PIPE (entry_criteria_parts row))

/-- `make_embed_for_row_classic` from the source, pure parts (title,
description, footer).  Reads B = 1, C = 2, E = 4, then AC = 28, AD = 29,
AE = 30 unchecked, then V–AB via `build_entry_criteria_classic`; `none`
models Python `IndexError` at the first out-of-range access. -/
def make_embed_for_row_classic (row : List String) (filters_text : String) :
    Option Embed := do
  let clan0 ← row.get? 1
  let tag0 ← row.get? 2
  let spots0 ← row.get? 4
  let reserved0 ← row.get? 28
  let comments0 ← row.get? 29
  let addl0 ← row.get? 30
  let clan := pyStrip clan0
  let tag := pyStrip tag0
  let spots := pyStrip spots0
  let reserved := pyStrip reserved0
  let comments := pyStrip comments0
  let addl_req := pyStrip addl0
  let title := clan ++ " `" ++ tag ++ "`  — Spots: " ++ spots
  let title := if reserved ≠ "" then title ++ " | Reserved: " ++ reserved else title
  let ec ← build_entry_criteria_classic row
  let sections := [ec]
    ++ (if addl_req ≠ "" then ["**Additional Requirements:** " ++ addl_req] else [])
    ++ (if comments ≠ "" then ["**Clan Needs/Comments:** " ++ comments] else [])
  return { title := title,
           description := String.intercalate "\n\n" sections,
           footer := "Filters used: " ++ filters_text }

/-- One UI child control of a view (select or button); the timeout and
owner-lock claims only depend on its disabled flag. -/
structure ViewChild where
  disabled : Bool
deriving DecidableEq

/-- The state of a `ClanMatchView` panel: owner, variant, spawn command,
the six filter values, roster mode, child controls, and the id of the
panel message once sent. -/
structure ClanMatchViewState where
  author_id : Int
  embed_variant : String
  spawn_cmd : String
  cb : Option String
  hydra : Option String
  chimera : Option String
  playstyle : Option String
  cvc : Option String
  siege : Option String
  roster_mode : Option String
  children : List ViewChild
  message : Option Nat
deriving DecidableEq

/-- A `message.edit(embed=...)` call issued by `on_timeout`, reduced to
the embed's pure fields. -/
structure EditCall where
  title : String
  description : String
deriving DecidableEq

/-- `ClanMatchView.on_timeout` from the source: disable every child; if
the panel message is set, edit it to the expired notice that names the
spawn command.  The attempted edit is returned as data (a failing edit is
swallowed by the source's `except`). -/
def clanmatch_on_timeout (s : ClanMatchViewState) :
    ClanMatchViewState × Option EditCall :=
  let s' := { s with children := s.children.map (fun c => { c with disabled := true }) }
  let cmd := if s.spawn_cmd = "search" then "!clansearch" else "!clanmatch"
  match s.message with
  | some _ =>
    (s', some { title := "Find a C1C Clan",
                description := "⏳ This panel expired. Type **" ++ cmd
                  ++ "** to open a fresh one." })
  | none => (s', none)

/-- `ClanMatchView.interaction_check` from the source: allow only the
panel's author. -/
def clanmatch_interaction_check (s : ClanMatchViewState) (user_id : Int) : Bool :=
  if user_id ≠ s.author_id then false else true

/-- The interactions a `ClanMatchView` panel offers: the four selects
(carrying `select.values[0] if select.values else None`), the CvC and
Siege toggles, the roster cycle, Reset, and Search Clans. -/
inductive PanelEvent where
  | cbSelect : Option String → PanelEvent
  | hydraSelect : Option String → PanelEvent
  | chimeraSelect : Option String → PanelEvent
  | playstyleSelect : Option String → PanelEvent
  | toggleCvc : PanelEvent
  | toggleSiege : PanelEvent
  | toggleRoster : PanelEvent
  | resetFilters : PanelEvent
  | searchClans : PanelEvent
deriving DecidableEq

/-- `ClanMatchView._cycle` from the source: None → "1" → "0" → None. -/
def cycle_toggle : Option String → Option String
  | none => some "1"
  | some v => if v = "1" then some "0" else none

/-- The state change performed by each `ClanMatchView` handler (the
Search button posts results but leaves the filter state unchanged). -/
def apply_panel_event (s : ClanMatchViewState) : PanelEvent → ClanMatchViewState
  | .cbSelect v => { s with cb := v }
  | .hydraSelect v => { s with hydra := v }
  | .chimeraSelect v => { s with chimera := v }
  | .playstyleSelect v => { s with playstyle := v }
  | .toggleCvc => { s with cvc := cycle_toggle s.cvc }
  | .toggleSiege => { s with siege := cycle_toggle s.siege }
  | .toggleRoster =>
    { s with roster_mode :=
        if s.roster_mode = some "open" then none
        else if s.roster_mode = none then some "full"
        else some "open" }
  | .resetFilters =>
    { s with cb := none, hydra := none, chimera := none, playstyle := none,
             cvc := none, siege := none, roster_mode := some "open" }
  | .searchClans => s

/-- The discord.py dispatch contract: a component handler runs only when
`interaction_check` returns True; otherwise the view is untouched. -/
def dispatch_panel_event (s : ClanMatchViewState) (user_id : Int)
    (e : PanelEvent) : ClanMatchViewState :=
  if clanmatch_interaction_check s user_id then apply_panel_event s e else s

/-- The state of a `PagedResultsView` pager: owner, the matched rows, and
the current page. -/
structure PagedResultsViewState where
  author_id : Int
  rows : List (List String)
  page : Nat
deriving DecidableEq

/-- `PagedResultsView.interaction_check` from the source (the
interaction's user always exists in this model). -/
def paged_interaction_check (s : PagedResultsViewState) (user_id : Int) : Bool :=
  if user_id = s.author_id then true else false

/-- The interactions a `PagedResultsView` offers. -/
inductive PagedEvent where
  | prevBtn : PagedEvent
  | nextBtn : PagedEvent
  | closeBtn : PagedEvent
deriving DecidableEq

/-- The page change performed by each `PagedResultsView` handler.  The
Close button deletes or disables the results message and leaves the page
unchanged. -/
def apply_paged_event (s : PagedResultsViewState) : PagedEvent → PagedResultsViewState
  | .prevBtn => if s.page > 0 then { s with page := s.page - 1 } else s
  | .nextBtn =>
    let max_page := max 0 ((s.rows.length + PAGE_SIZE - 1) / PAGE_SIZE - 1)
    if s.page < max_page then { s with page := s.page + 1 } else s
  | .closeBtn => s

/-- Dispatch for `PagedResultsView`, guarded by its `interaction_check`. -/
def dispatch_paged_event (s : PagedResultsViewState) (user_id : Int)
    (e : PagedEvent) : PagedResultsViewState :=
  if paged_interaction_check s user_id then apply_paged_event s e else s

/-- Uppercased trimmed clan name of a row (column B = 1). -/
def clan_name_u (row : List String) : String :=
  pyUpper (pyStrip (cellAt row 1))

/-- Uppercased trimmed clan tag of a row (column C = 2). -/
def clan_tag_u (row : List String) : String :=
  pyUpper (pyStrip (cellAt row 2))

/-- A row `find_clan_row` considers: not a header row, and name and tag
not both blank. -/
def clan_candidate (row : List String) : Bool :=
  !is_header_row row
    && !(pyStrip (cellAt row 1) == "" && pyStrip (cellAt row 2) == "")

/-- The scan loop of `find_clan_row`: `exact_name` and `looseAcc` are the
`exact_name` and partial-match accumulators; the outer `none` models an
`IndexError` on a row shorter than 3 cells.  A tag-exact row breaks the
loop and wins outright. -/
def find_clan_loop (rows : List (List String)) (q : String)
    (exact_name : Option (List String)) (looseAcc : List (List String)) :
    Option (Option (List String)) :=
  match rows with
  | [] => some (exact_name <|> looseAcc.head?)
  | row :: rest =>
    if is_header_row row then find_clan_loop rest q exact_name looseAcc
    else
      match row.get? 1, row.get? 2 with
      | some nameCell, some tagCell =>
        let name := pyStrip nameCell
        let tag := pyStrip tagCell
        if name = "" ∧ tag = "" then find_clan_loop rest q exact_name looseAcc
        else
          let nU := pyUpper name
          let tU := pyUpper tag
          if q = tU then some (some row)
          else
            find_clan_loop rest q
              (if q = nU ∧ exact_name = none then some row else exact_name)
              (if pyIn q tU || pyIn q nU then looseAcc ++ [row] else looseAcc)
      | _, _ => none

/-- `find_clan_row` from the source.  The outer `Option` models a Python
`IndexError`; the inner one is the function's own `None` result. -/
def find_clan_row (query : String) (rows : List (List String)) :
    Option (Option (List String)) :=
  if query = "" then some none
  else find_clan_loop (rows.drop 1) (pyUpper (pyStrip query)) none []

/-- The resolution order the claim describes: first tag-exact, then
name-exact, then first substring match on tag or name, over the data rows
that `find_clan_row` considers. -/
def resolve_clan_query (q : String) (rows : List (List String)) :
    Option (List String) :=
  let cands := (rows.drop 1).filter clan_candidate
  (cands.find? (fun r => q == clan_tag_u r))
    <|> (cands.find? (fun r => q == clan_name_u r))
    <|> (cands.find? (fun r => pyIn q (clan_tag_u r) || pyIn q (clan_name_u r)))

/-- A header-like first sheet row (always skipped via `rows[1:]`). -/
def ex_header_row : List String :=
  ["", "CLAN", "TAG", "", "SPOTS"]

/-- A 30-cell data row whose CB filter cell (P = 15) reads "NM" and whose
comments cell (AD = 29) mentions "UNM". -/
def ex_row_nm : List String :=
  ["", "Phoenix", "PHX", "", "2", "", "", "", "", "", "", "", "", "", "",
   "NM", "", "", "", "", "", "", "", "", "", "", "", "", "", "UNM soon"]

/-- A 28-cell well-formed data row whose CvC cell (S = 18) reads "1". -/
def ex_row_cvc1 : List String :=
  ["", "Alpha", "AL", "", "5", "", "", "", "", "", "", "", "", "", "",
   "", "", "", "1", "", "", "", "", "", "", "", "", ""]

/-- A well-formed data row of length exactly 28 (the minimum
`row_matches` accepts). -/
def ex_row_len28 : List String :=
  ["", "Phoenix", "PHX", "", "2", "", "", "", "", "", "", "", "", "", "",
   "", "", "", "", "", "", "", "", "", "", "", "", ""]

/-- A well-formed data row of length 31 (wide enough for the classic
card's AC/AD/AE columns). -/
def ex_row_len31 : List String :=
  ["", "Phoenix", "PHX", "", "2", "", "", "", "", "", "", "", "", "", "",
   "", "", "", "", "", "", "30", "", "", "", "", "", "", "res", "note", "req"]

/-- A second data row, with a different name and tag. -/
def ex_row_beta : List String :=
  ["", "Beta Wolves", "BW", "", "0", "", "", "", "", "", "", "", "", "", "",
   "", "", "", "", "", "", "", "", "", "", "", "", ""]

/-- A small sheet: header row then two data rows. -/
def ex_sheet : List (List String) :=
  [ex_header_row, ex_row_len28, ex_row_beta]

/-- Filter bundle with nothing set. -/
def no_filters : Filters :=
  ⟨none, none, none, none, none, none⟩

/-- A concrete member panel (spawned by !clansearch) with two controls
and a sent panel message. -/
def ex_view : ClanMatchViewState :=
  { author_id := 1, embed_variant := "search", spawn_cmd := "search",
    cb := none, hydra := none, chimera := none, playstyle := none,
    cvc := none, siege := none, roster_mode := some "open",
    children := [⟨false⟩, ⟨false⟩], message := some 5 }

/-- A concrete pager over twelve result rows, on page 0. -/
def ex_paged : PagedResultsViewState :=
  { author_id := 1, rows := List.replicate 12 ex_row_len28, page := 0 }

/-! Helper lemmas. -/

theorem get?_some_of_lt :
    ∀ (l : List String) (i : Nat), i < l.length → l.get? i = some (l.getD i "") := by
  intro l
  induction l with
  | nil => intro i h; simp at h
  | cons a t ih =>
    intro i h
    cases i with
    | zero => rfl
    | succ n =>
      have hn : n < t.length := by simpa using h
      simpa [List.getD] using ih n hn

theorem opt_orElse_assoc {α : Type} (a b c : Option α) :
    ((a <|> b) <|> c) = (a <|> (b <|> c)) := by
  cases a <;> simp

theorem head?_append_singleton {α : Type} (l : List α) (a : α) :
    (l ++ [a]).head? = (l.head? <|> some a) := by
  cases l <;> simp

theorem filterMap_id_cons {α : Type} (o : Option α) (l : List (Option α)) :
    List.filterMap id (o :: l) = o.toList ++ List.filterMap id l := by
  cases o <;> simp [List.filterMap_cons]

theorem getLast?_of_map {α β : Type} (f : α → β) (l : List α) :
    (l.map f).getLast? = (l.getLast?).map f := by
  induction l with
  | nil => rfl
  | cons a t ih =>
    cases t with
    | nil => rfl
    | cons b u => simpa [List.getLast?_cons_cons] using ih

theorem dropLast_of_map {α β : Type} (f : α → β) (l : List α) :
    (l.map f).dropLast = l.dropLast.map f := by
  induction l with
  | nil => rfl
  | cons a t ih =>
    cases t with
    | nil => rfl
    | cons b u => simp [ih]

/-! Claim C2. -/

/-- C2 (amended): `row_matches` returns true iff the row is well-formed
(length greater than 27, not a header row, clan-name cell non-blank after
trimming) and each of the six per-column predicates holds; the
cb/hydra/chimera/playstyle predicates pass unconditionally when the
filter is `None` (and, being truthiness-guarded, when it is empty), the
cvc/siege predicate passes unconditionally when its filter is `None`; in
particular, with all six filters unset, every well-formed data row
matches. -/
theorem c2_row_matches_characterization :
    (∀ (row : List String) (cb hydra chimera cvc siege playstyle : Option String),
      row_matches row cb hydra chimera cvc siege playstyle = true ↔
        (27 < row.length ∧ is_header_row row = false ∧ pyStrip (cellAt row 1) ≠ "" ∧
         cell_has_diff (cellAt row 15) cb = true ∧
         cell_has_diff (cellAt row 16) hydra = true ∧
         cell_has_diff (cellAt row 17) chimera = true ∧
         cell_equals_10 (cellAt row 18) cvc = true ∧
         cell_equals_10 (cellAt row 19) siege = true ∧
         playstyle_ok (cellAt row 20) playstyle = true))
    ∧ (∀ c : String, cell_has_diff c none = true ∧ cell_equals_10 c none = true ∧
        playstyle_ok c none = true)
    ∧ (∀ row : List String, 27 < row.length → is_header_row row = false →
        pyStrip (cellAt row 1) ≠ "" →
        row_matches row none none none none none none = true) := by
  refine ⟨?_, ?_, ?_⟩
  · intro row cb hydra chimera cvc siege playstyle
    unfold row_matches
    split_ifs with h1 h2 h3
    · simp only [false_iff]
      rintro ⟨hlen, -⟩
      omega
    · simp only [false_iff]
      rintro ⟨-, hh, -⟩
      simp [hh] at h2
    · simp only [false_iff]
      rintro ⟨-, -, hn, -⟩
      exact hn h3
    · simp only [Bool.and_eq_true]
      constructor
      · intro hb
        refine ⟨by omega, by simpa using h2, h3, ?_, ?_, ?_, ?_, ?_, ?_⟩ <;> tauto
      · rintro ⟨-, -, -, h4, h5, h6, h7, h8, h9⟩
        tauto
  · intro c
    refine ⟨?_, rfl, ?_⟩ <;> simp [cell_has_diff, playstyle_ok, pyTruthy]
  · intro row h1 h2 h3
    unfold row_matches
    rw [if_neg (by omega), if_neg (by simp [h2]), if_neg h3]
    simp [cell_has_diff, cell_equals_10, playstyle_ok, pyTruthy]

/-- C2 counterexample: a well-formed 28-cell row on which every other
predicate passes, yet with the cvc filter set to the empty string the row
does not match — an empty cvc/siege filter does not "pass
unconditionally" (it demands a blank cell), contradicting the claim. -/
theorem c2_counterexample :
    row_matches ex_row_cvc1 none none none (some "") none none = false
    ∧ 27 < ex_row_cvc1.length
    ∧ is_header_row ex_row_cvc1 = false
    ∧ pyStrip (cellAt ex_row_cvc1 1) ≠ ""
    ∧ cell_has_diff (cellAt ex_row_cvc1 15) none = true
    ∧ cell_has_diff (cellAt ex_row_cvc1 16) none = true
    ∧ cell_has_diff (cellAt ex_row_cvc1 17) none = true
    ∧ cell_equals_10 (cellAt ex_row_cvc1 19) none = true
    ∧ playstyle_ok (cellAt ex_row_cvc1 20) none = true
    ∧ cell_equals_10 (cellAt ex_row_cvc1 18) (some "") = false := by
  decide

/-- C2 witness: the all-filters-unset part of the theorem applied to a
concrete well-formed row. -/
theorem c2_witness :
    27 < ex_row_len28.length
    ∧ row_matches ex_row_len28 none none none none none none = true :=
  ⟨by decide,
   c2_row_matches_characterization.2.2 ex_row_len28 (by decide) (by decide) (by decide)⟩

/-! Claim C3. -/

/-- C3 (amended): the playstyle predicate matches by exact token
membership, not substring containment: when the chosen filter value
canonicalizes to a known style, the row passes iff that canonical style
is among the canonicalized tokens of the style cell (split on commas,
pipes, slashes and semicolons). -/
theorem c3_playstyle_token_membership :
    ∀ (cell v w : String), canon_style v = some w →
      (playstyle_ok cell (some v) = true ↔ (split_styles cell).contains w = true) := by
  intro cell v w hw
  have hv : ¬(v = "") := by
    rintro rfl
    rw [show canon_style "" = none from by decide] at hw
    exact Option.noConfusion hw
  have ht : pyTruthy (some v) = true := by
    simp [pyTruthy, hv]
  unfold playstyle_ok
  rw [if_neg (by simp [ht])]
  rw [show (some v).getD "" = v from rfl, hw]

/-- C3 counterexample: the claim predicts a match whenever the uppercased
filter value is a substring of the normalized style cell; with filter
"Competitive" and cell "Semi-Competitive" the substring test holds, yet
`playstyle_ok` rejects the row. -/
theorem c3_counterexample :
    playstyle_ok "Semi-Competitive" (some "Competitive") = false
    ∧ pyIn (pyUpper (pyStrip "Competitive")) (norm "Semi-Competitive") = true := by
  decide

/-- C3 witness: the theorem applied to a concrete cell and filter. -/
theorem c3_witness :
    canon_style "competitive" = some "COMPETITIVE"
    ∧ playstyle_ok "Casual, competitive" (some "competitive") = true :=
  ⟨by decide,
   (c3_playstyle_token_membership "Casual, competitive" "competitive" "COMPETITIVE"
     (by decide)).mpr (by decide)⟩

/-! Claim C1. -/

theorem collect_matches_eq_filter (rows : List (List String)) (f : Filters)
    (r : Option String) :
    collect_matches rows f r = rows.filter (fun row =>
      !is_header_row row
        && row_matches row f.cb f.hydra f.chimera f.cvc f.siege f.playstyle
        && !roster_excludes r row) := by
  induction rows with
  | nil => rfl
  | cons row rest ih =>
    cases h1 : is_header_row row with
    | true => simp [collect_matches, h1, ih, List.filter_cons]
    | false =>
      cases h2 : row_matches row f.cb f.hydra f.chimera f.cvc f.siege f.playstyle with
      | false => simp [collect_matches, h1, h2, ih, List.filter_cons]
      | true =>
        cases h3 : roster_excludes r row with
        | false => simp [collect_matches, h1, h2, h3, ih, List.filter_cons]
        | true => simp [collect_matches, h1, h2, h3, ih, List.filter_cons]

/-- C1 (amended): when the strict row filter (`row_matches` plus the
roster-mode spots check) yields zero matching rows, both search paths
report no matches — the Search button answers with the no-matches message
and `_maybe_refresh` clears the results message — and no fallback
substring search is performed; when it yields rows, exactly those rows
are reported. -/
theorem c1_no_fallback_on_zero_matches :
    ∀ (rows : List (List String)) (f : Filters) (roster_mode : Option String),
      search_outcome rows f roster_mode =
        (if any_filter_set f roster_mode then
          (if strict_filter rows f roster_mode = [] then SearchOutcome.noMatches
           else SearchOutcome.results (strict_filter rows f roster_mode))
         else SearchOutcome.pickAtLeastOne)
      ∧ maybe_refresh_outcome "classic" true rows f roster_mode =
        (if strict_filter rows f roster_mode = [] then RefreshOutcome.clearedNoMatches
         else RefreshOutcome.updated (strict_filter rows f roster_mode)) := by
  intro rows f r
  have hc := collect_matches_eq_filter (rows.drop 1) f r
  constructor
  · cases hg : any_filter_set f r with
    | false => simp [search_outcome, hg]
    | true =>
      simp only [search_outcome, hg, hc]
      by_cases hnil : strict_filter rows f r = [] <;>
        simp [strict_filter, hnil, List.isEmpty_iff] at hnil ⊢
  · simp only [maybe_refresh_outcome, hc]
    by_cases hnil : strict_filter rows f r = [] <;>
      simp [strict_filter, hnil, List.isEmpty_iff] at hnil ⊢

/-- C1 counterexample: a sheet on which the strict filter yields zero
rows while the spec's fallback substring search (modelled in
`fallback_substring_search`) would find one: the code reports no matches
rather than the fallback results the claim promises. -/
theorem c1_counterexample :
    search_outcome [ex_header_row, ex_row_nm]
        ⟨some "UNM", none, none, none, none, none⟩ none
      = SearchOutcome.noMatches
    ∧ maybe_refresh_outcome "classic" true [ex_header_row, ex_row_nm]
        ⟨some "UNM", none, none, none, none, none⟩ none
      = RefreshOutcome.clearedNoMatches
    ∧ fallback_substring_search [ex_header_row, ex_row_nm] "UNM" = [ex_row_nm] := by
  decide

/-! Claim C4. -/

/-- C4: with force false, a still-fresh cache (rows present and age at
most `CACHE_TTL`) is returned unchanged and no fetch occurs; otherwise
(cache empty, age above the TTL, or force true) the fresh fetch result is
stored with the current time and returned. -/
theorem c4_get_rows_cache :
    (∀ (st : SheetsCache) (now : Int) (fetched rows : List (List String)),
      st.cache_rows = some rows → now - st.cache_time ≤ CACHE_TTL →
      get_rows st false now fetched = (rows, st, false))
    ∧ (∀ (st : SheetsCache) (force : Bool) (now : Int) (fetched : List (List String)),
      (force = true ∨ st.cache_rows = none ∨ now - st.cache_time > CACHE_TTL) →
      get_rows st force now fetched = (fetched, ⟨some fetched, now⟩, true)) := by
  constructor
  · intro st now fetched rows hsome hage
    have hlt : ¬(now - st.cache_time > CACHE_TTL) := not_lt.mpr hage
    simp [get_rows, hsome, hlt]
  · intro st force now fetched h
    rcases h with h | h | h
    · subst h; simp [get_rows]
    · simp [get_rows, h]
    · simp [get_rows, h]

/-- C4 witness: the theorem applied to a concrete cache state, once
fresh (age 50 ≤ 60, cached rows returned, no fetch) and once stale
(age 61 > 60, fetch stored and returned). -/
theorem c4_witness :
    ((⟨some [ex_row_len28], 100⟩ : SheetsCache).cache_rows = some [ex_row_len28]
      ∧ (150 : Int) - 100 ≤ CACHE_TTL
      ∧ get_rows ⟨some [ex_row_len28], 100⟩ false 150 []
          = ([ex_row_len28], ⟨some [ex_row_len28], 100⟩, false))
    ∧ ((161 : Int) - 100 > CACHE_TTL
      ∧ get_rows ⟨some [ex_row_len28], 100⟩ false 161 [[]]
          = ([[]], ⟨some [[]], 161⟩, true)) :=
  ⟨⟨rfl, by decide, c4_get_rows_cache.1 _ 150 [] _ rfl (by decide)⟩,
   ⟨by decide, c4_get_rows_cache.2 _ false 161 [[]] (Or.inr (Or.inr (by decide)))⟩⟩

/-! Claim C5. -/

theorem drop_take_comm {α : Type} (l : List α) (s e : Nat) :
    (l.take e).drop s = (l.drop s).take (e - s) := by
  induction l generalizing s e with
  | nil => simp
  | cons a t ih =>
    cases e with
    | zero => simp
    | succ e =>
      cases s with
      | zero => simp
      | succ s => simpa [Nat.succ_sub_succ] using ih s e

theorem pySlice_take_drop {α : Type} (l : List α) (s n : Nat) :
    pySlice l s (min l.length (s + n)) = (l.drop s).take n := by
  unfold pySlice
  rw [drop_take_comm]
  refine List.take_eq_take.mpr ?_
  simp only [List.length_drop]
  omega

theorem getLast?_none_iff {α : Type} (l : List α) : l.getLast? = none ↔ l = [] := by
  induction l with
  | nil => simp
  | cons a t ih =>
    cases t with
    | nil => simp
    | cons b u => simp [List.getLast?_cons_cons, ih]

theorem page_embeds_eq (rows : List (List String)) (p : Nat)
    (builder : List String → String → Embed) (ftx : String) :
    page_embeds rows p builder ftx =
      (match ((rows.drop (p * PAGE_SIZE)).take PAGE_SIZE).map
          (fun r => builder r ftx) |>.getLast? with
       | none => ((rows.drop (p * PAGE_SIZE)).take PAGE_SIZE).map (fun r => builder r ftx)
       | some last =>
         (((rows.drop (p * PAGE_SIZE)).take PAGE_SIZE).map (fun r => builder r ftx)).dropLast
           ++ [with_page_info last (page_info_text rows p)]) := by
  simp only [page_embeds, pySlice_take_drop, with_page_info, page_info_text]

/-- C5: `_page_embeds` builds one embed per row of the page slice
(at most `PAGE_SIZE = 10`), and when the slice is non-empty the footer of
the last embed is extended with "Page p+1/T • N total", where N is the
total number of matched rows and T = max(1, ceil(N / PAGE_SIZE)). -/
theorem c5_page_embeds_slice_and_footer :
    PAGE_SIZE = 10
    ∧ (∀ (rows : List (List String)) (p : Nat)
        (builder : List String → String → Embed) (ftx : String),
      (page_embeds rows p builder ftx).length
          = ((rows.drop (p * PAGE_SIZE)).take PAGE_SIZE).length
      ∧ (page_embeds rows p builder ftx).length ≤ PAGE_SIZE
      ∧ ((rows.drop (p * PAGE_SIZE)).take PAGE_SIZE = [] →
          page_embeds rows p builder ftx = [])
      ∧ (∀ lastRow, ((rows.drop (p * PAGE_SIZE)).take PAGE_SIZE).getLast? = some lastRow →
          page_embeds rows p builder ftx =
            (((rows.drop (p * PAGE_SIZE)).take PAGE_SIZE).map (fun r => builder r ftx)).dropLast
              ++ [with_page_info (builder lastRow ftx) (page_info_text rows p)])) := by
  refine ⟨rfl, ?_⟩
  intro rows p builder ftx
  have hpe := page_embeds_eq rows p builder ftx
  have hmap := getLast?_of_map (fun r => builder r ftx)
    ((rows.drop (p * PAGE_SIZE)).take PAGE_SIZE)
  cases hl : ((rows.drop (p * PAGE_SIZE)).take PAGE_SIZE).getLast? with
  | none =>
    have hnil : (rows.drop (p * PAGE_SIZE)).take PAGE_SIZE = [] :=
      (getLast?_none_iff _).mp hl
    rw [hl] at hmap
    rw [hmap] at hpe
    simp only [Option.map_none'] at hpe
    refine ⟨by rw [hpe]; simp, by rw [hpe]; simp [hnil], fun _ => by rw [hpe, hnil]; rfl, ?_⟩
    intro lastRow hcontra
    exact Option.noConfusion hcontra
  | some lastRow0 =>
    have hne : (rows.drop (p * PAGE_SIZE)).take PAGE_SIZE ≠ [] := by
      intro hnil
      rw [hnil] at hl
      exact Option.noConfusion hl
    rw [hl] at hmap
    simp only [Option.map_some'] at hmap
    rw [hmap] at hpe
    have hlen : 1 ≤ ((rows.drop (p * PAGE_SIZE)).take PAGE_SIZE).length := by
      cases hc : (rows.drop (p * PAGE_SIZE)).take PAGE_SIZE with
      | nil => exact absurd hc hne
      | cons a t => simp
    have htake : ((rows.drop (p * PAGE_SIZE)).take PAGE_SIZE).length ≤ PAGE_SIZE := by
      simp
    refine ⟨?_, ?_, ?_, ?_⟩
    · rw [hpe]
      simp only [List.length_append, List.length_dropLast, List.length_map,
        List.length_cons, List.length_nil]
      omega
    · rw [hpe]
      simp only [List.length_append, List.length_dropLast, List.length_map,
        List.length_cons, List.length_nil]
      omega
    · intro hnil
      exact absurd hnil hne
    · intro lastRow hsome
      injection hsome with hrw
      subst hrw
      rw [hpe]

/-- C5 witness: the theorem applied to a concrete 11-row result set on
page 0, then evaluated. -/
theorem c5_witness :
    (((List.replicate 11 ex_row_len28).drop (0 * PAGE_SIZE)).take PAGE_SIZE).getLast?
        = some ex_row_len28
    ∧ page_embeds (List.replicate 11 ex_row_len28) 0 (fun _ f => ⟨"t", "d", f⟩) "F"
        = ((((List.replicate 11 ex_row_len28).drop (0 * PAGE_SIZE)).take PAGE_SIZE).map
            (fun r => (fun (_ : List String) (f : String) => (⟨"t", "d", f⟩ : Embed)) r "F")).dropLast
          ++ [with_page_info ((fun (_ : List String) (f : String) => (⟨"t", "d", f⟩ : Embed)) ex_row_len28 "F")
                (page_info_text (List.replicate 11 ex_row_len28) 0)] :=
  ⟨by decide,
   (c5_page_embeds_slice_and_footer.2 (List.replicate 11 ex_row_len28) 0
     (fun _ f => ⟨"t", "d", f⟩) "F").2.2.2 ex_row_len28 (by decide)⟩

/-! Claim C6. -/

theorem ite_some_toList {α : Type} (c : Prop) [Decidable c] (x : α) :
    (if c then some x else none).toList = if c then [x] else [] := by
  split <;> rfl

theorem build_entry_criteria_eq (row : List String) (h : 27 < row.length) :
    build_entry_criteria_classic row = some (entry_criteria_spec row) := by
  have h21 := get?_some_of_lt row 21 (by omega)
  have h22 := get?_some_of_lt row 22 (by omega)
  have h23 := get?_some_of_lt row 23 (by omega)
  have h24 := get?_some_of_lt row 24 (by omega)
  have h25 := get?_some_of_lt row 25 (by omega)
  have h26 := get?_some_of_lt row 26 (by omega)
  have h27 := get?_some_of_lt row 27 (by omega)
  simp only [build_entry_criteria_classic, h21, h22, h23, h24, h25, h26, h27,
    Option.bind_eq_bind, Option.some_bind, Option.pure_def,
    entry_criteria_spec, entry_criteria_parts, cellAt,
    filterMap_id_cons, ite_some_toList, List.filterMap_nil, List.append_nil,
    List.append_assoc]

/-- C6: for every row wide enough for the entry-criteria columns,
`build_entry_criteria_classic` returns "**Entry Criteria:** " followed by
the em dash when all seven cells V–AB are blank after trimming, and
otherwise by the non-blank parts joined by the non-breaking-space pipe,
in the fixed order V, W, X, Y, Z, AA, AB with the claimed labels. -/
theorem c6_entry_criteria_classic :
    ∀ row : List String, 27 < row.length →
      build_entry_criteria_classic row = some (entry_criteria_spec row) := by
  intro row h
  exact build_entry_criteria_eq row h

/-- C6 witness: the theorem applied to concrete rows, one with a single
non-blank criteria cell and one with all of them blank. -/
theorem c6_witness :
    (27 < ex_row_len31.length
      ∧ build_entry_criteria_classic ex_row_len31 = some (entry_criteria_spec ex_row_len31)
      ∧ entry_criteria_spec ex_row_len31 = "**Entry Criteria:** Hydra keys: 30")
    ∧ (27 < ex_row_len28.length
      ∧ build_entry_criteria_classic ex_row_len28 = some (entry_criteria_spec ex_row_len28)
      ∧ entry_criteria_spec ex_row_len28 = "**Entry Criteria:** —") :=
  ⟨⟨by decide, c6_entry_criteria_classic ex_row_len31 (by decide), by decide⟩,
   ⟨by decide, c6_entry_criteria_classic ex_row_len28 (by decide), by decide⟩⟩

/-! Claim C7. -/

/-- C7: when a `ClanMatchView` panel times out, every child control
becomes disabled, and if the panel message is set it is edited to an
expired notice naming !clansearch or !clanmatch according to the panel's
spawn command (and no edit is attempted when no message is set). -/
theorem c7_on_timeout_disables_and_notifies :
    ∀ s : ClanMatchViewState,
      (∀ c ∈ (clanmatch_on_timeout s).1.children, c.disabled = true)
      ∧ (s.message.isSome = true →
          (clanmatch_on_timeout s).2 = some
            { title := "Find a C1C Clan",
              description := "⏳ This panel expired. Type **"
                ++ (if s.spawn_cmd = "search" then "!clansearch" else "!clanmatch")
                ++ "** to open a fresh one." })
      ∧ (s.message = none → (clanmatch_on_timeout s).2 = none) := by
  intro s
  refine ⟨?_, ?_, ?_⟩
  · intro c hc
    cases hm : s.message <;>
      · simp only [clanmatch_on_timeout, hm] at hc
        obtain ⟨c0, -, rfl⟩ := List.mem_map.mp hc
        rfl
  · intro hm
    cases hmm : s.message with
    | none => rw [hmm] at hm; simp at hm
    | some m => simp [clanmatch_on_timeout, hmm]
  · intro hm
    simp [clanmatch_on_timeout, hm]

/-- C7 witness: the theorem applied to a concrete panel spawned by
!clansearch with a sent message. -/
theorem c7_witness :
    ex_view.message.isSome = true
    ∧ (clanmatch_on_timeout ex_view).2 = some
        { title := "Find a C1C Clan",
          description := "⏳ This panel expired. Type **"
            ++ (if ex_view.spawn_cmd = "search" then "!clansearch" else "!clanmatch")
            ++ "** to open a fresh one." } :=
  ⟨by decide, (c7_on_timeout_disables_and_notifies ex_view).2.1 (by decide)⟩

/-! Claim C8. -/

theorem panel_locked (s : ClanMatchViewState) (uid : Int) (e : PanelEvent)
    (h : uid ≠ s.author_id) :
    clanmatch_interaction_check s uid = false ∧ dispatch_panel_event s uid e = s := by
  have hch : clanmatch_interaction_check s uid = false := by
    simp [clanmatch_interaction_check, h]
  exact ⟨hch, by simp [dispatch_panel_event, hch]⟩

theorem paged_locked (s : PagedResultsViewState) (uid : Int) (e : PagedEvent)
    (h : uid ≠ s.author_id) :
    paged_interaction_check s uid = false ∧ dispatch_paged_event s uid e = s := by
  have hch : paged_interaction_check s uid = false := by
    simp [paged_interaction_check, h]
  exact ⟨hch, by simp [dispatch_paged_event, hch]⟩

/-- C8: panels are owner-locked.  For any interaction by a user other
than the view's author, `interaction_check` returns False and the
dispatched event leaves the view state (filters, roster mode, page)
unchanged; contrapositively, any interaction that changes the state came
from the author. -/
theorem c8_owner_locked :
    (∀ (s : ClanMatchViewState) (uid : Int) (e : PanelEvent), uid ≠ s.author_id →
      clanmatch_interaction_check s uid = false ∧ dispatch_panel_event s uid e = s)
    ∧ (∀ (s : PagedResultsViewState) (uid : Int) (e : PagedEvent), uid ≠ s.author_id →
      paged_interaction_check s uid = false ∧ dispatch_paged_event s uid e = s)
    ∧ (∀ (s : ClanMatchViewState) (uid : Int) (e : PanelEvent),
        dispatch_panel_event s uid e ≠ s → uid = s.author_id)
    ∧ (∀ (s : PagedResultsViewState) (uid : Int) (e : PagedEvent),
        dispatch_paged_event s uid e ≠ s → uid = s.author_id) := by
  refine ⟨fun s uid e h => panel_locked s uid e h,
          fun s uid e h => paged_locked s uid e h, ?_, ?_⟩
  · intro s uid e h
    by_contra hne
    exact h (panel_locked s uid e hne).2
  · intro s uid e h
    by_contra hne
    exact h (paged_locked s uid e hne).2

/-- C8 witness: a stranger (user 2) clicking a select of user 1's panel
and the Next button of user 1's pager changes nothing. -/
theorem c8_witness :
    (2 : Int) ≠ ex_view.author_id
    ∧ dispatch_panel_event ex_view 2 (PanelEvent.cbSelect (some "NM")) = ex_view
    ∧ dispatch_paged_event ex_paged 2 PagedEvent.nextBtn = ex_paged :=
  ⟨by decide,
   (c8_owner_locked.1 ex_view 2 (PanelEvent.cbSelect (some "NM")) (by decide)).2,
   (c8_owner_locked.2.1 ex_paged 2 PagedEvent.nextBtn (by decide)).2⟩

/-! Claim C9. -/

/-- C9 (amended): `row_matches` only guarantees row length at least 28,
but the classic card also reads indices 28, 29 and 30; card construction
stays in bounds exactly when the row has length at least 31. -/
theorem c9_classic_card_inbounds :
    ∀ (row : List String) (ftx : String), 30 < row.length →
      (make_embed_for_row_classic row ftx).isSome = true := by
  intro row ftx h
  have h1 := get?_some_of_lt row 1 (by omega)
  have h2 := get?_some_of_lt row 2 (by omega)
  have h4 := get?_some_of_lt row 4 (by omega)
  have h28 := get?_some_of_lt row 28 (by omega)
  have h29 := get?_some_of_lt row 29 (by omega)
  have h30 := get?_some_of_lt row 30 (by omega)
  have hec := build_entry_criteria_eq row (by omega)
  simp only [make_embed_for_row_classic, h1, h2, h4, h28, h29, h30, hec,
    Option.bind_eq_bind, Option.some_bind, Option.pure_def, Option.isSome_some]

/-- C9 counterexample: a 28-cell row is accepted by `row_matches`, yet
the classic card builder hits an out-of-range access (index 28, the
Reserved column), contradicting the claimed in-bounds property. -/
theorem c9_counterexample :
    row_matches ex_row_len28 none none none none none none = true
    ∧ ex_row_len28.length = 28
    ∧ make_embed_for_row_classic ex_row_len28 "" = none := by
  decide

/-- C9 witness: the amended theorem applied to a 31-cell row. -/
theorem c9_witness :
    30 < ex_row_len31.length
    ∧ (make_embed_for_row_classic ex_row_len31 "f").isSome = true :=
  ⟨by decide, c9_classic_card_inbounds ex_row_len31 "f" (by decide)⟩

/-! Claim C10. -/

theorem find_clan_loop_spec :
    ∀ (rows : List (List String)) (q : String) (en : Option (List String))
      (acc : List (List String)),
      (∀ r ∈ rows, 2 < r.length) →
      find_clan_loop rows q en acc = some (
        ((rows.filter clan_candidate).find? (fun r => q == clan_tag_u r))
        <|> en
        <|> ((rows.filter clan_candidate).find? (fun r => q == clan_name_u r))
        <|> acc.head?
        <|> ((rows.filter clan_candidate).find? (fun r =>
              pyIn q (clan_tag_u r) || pyIn q (clan_name_u r)))) := by
  intro rows
  induction rows with
  | nil =>
    intro q en acc h
    simp [find_clan_loop]
  | cons row rest ih =>
    intro q en acc h
    have hrow : 2 < row.length := h row (by simp)
    have hrest : ∀ r ∈ rest, 2 < r.length := fun r hr => h r (by simp [hr])
    have hg1 : row.get? 1 = some (row.getD 1 "") := get?_some_of_lt row 1 (by omega)
    have hg2 : row.get? 2 = some (row.getD 2 "") := get?_some_of_lt row 2 (by omega)
    by_cases hh : is_header_row row = true
    · have hcand : clan_candidate row = false := by simp [clan_candidate, hh]
      rw [show find_clan_loop (row :: rest) q en acc = find_clan_loop rest q en acc
            from by simp [find_clan_loop, hh]]
      rw [ih q en acc hrest]
      simp [List.filter_cons, hcand]
    · have hhf : is_header_row row = false := by
        revert hh; cases is_header_row row <;> simp
      have hstep : find_clan_loop (row :: rest) q en acc =
          (if pyStrip (row.getD 1 "") = "" ∧ pyStrip (row.getD 2 "") = "" then
            find_clan_loop rest q en acc
          else if q = pyUpper (pyStrip (row.getD 2 "")) then some (some row)
          else find_clan_loop rest q
            (if q = pyUpper (pyStrip (row.getD 1 "")) ∧ en = none then some row else en)
            (if pyIn q (pyUpper (pyStrip (row.getD 2 "")))
                || pyIn q (pyUpper (pyStrip (row.getD 1 ""))) then acc ++ [row]
             else acc)) := by
        simp only [find_clan_loop, hg1, hg2, hhf, Bool.false_eq_true, if_false]
      have hT : pyUpper (pyStrip (row.getD 2 "")) = clan_tag_u row := rfl
      have hN : pyUpper (pyStrip (row.getD 1 "")) = clan_name_u row := rfl
      rw [hstep, hT, hN]
      by_cases hbl : pyStrip (row.getD 1 "") = "" ∧ pyStrip (row.getD 2 "") = ""
      · have hcand : clan_candidate row = false := by
          cases hcc : clan_candidate row with
          | false => rfl
          | true =>
            simp [clan_candidate, cellAt, hhf] at hcc
            rcases hcc with hn | hn
            · exact absurd (by simpa using hbl.1) hn
            · exact absurd (by simpa using hbl.2) hn
        rw [if_pos hbl, ih q en acc hrest]
        simp [List.filter_cons, hcand]
      · have hcand : clan_candidate row = true := by
          cases hcc : clan_candidate row with
          | true => rfl
          | false =>
            simp [clan_candidate, cellAt, hhf] at hcc
            exact absurd (by simpa using hcc) hbl
        have hfl : (row :: rest).filter clan_candidate
            = row :: rest.filter clan_candidate := by
          simp [List.filter_cons, hcand]
        rw [if_neg hbl]
        by_cases htag : q = clan_tag_u row
        · rw [if_pos htag, hfl]
          simp [htag]
        · rw [if_neg htag, ih q _ _ hrest, hfl]
          have hTeq : List.find? (fun r => q == clan_tag_u r)
              (row :: rest.filter clan_candidate)
              = List.find? (fun r => q == clan_tag_u r) (rest.filter clan_candidate) := by
            simp [htag]
          rw [hTeq]
          cases en with
          | some x => simp
          | none =>
            by_cases hname : q = clan_name_u row
            · have hNeq : List.find? (fun r => q == clan_name_u r)
                  (row :: rest.filter clan_candidate) = some row := by
                simp [hname]
              rw [hNeq, if_pos ⟨hname, rfl⟩]
              simp
            · have hNeq : List.find? (fun r => q == clan_name_u r)
                  (row :: rest.filter clan_candidate)
                  = List.find? (fun r => q == clan_name_u r) (rest.filter clan_candidate) := by
                simp [hname]
              rw [hNeq, if_neg (fun hcon => hname hcon.1)]
              by_cases hloose : (pyIn q (clan_tag_u row) || pyIn q (clan_name_u row)) = true
              · have hPeq : List.find? (fun r =>
                    pyIn q (clan_tag_u r) || pyIn q (clan_name_u r))
                    (row :: rest.filter clan_candidate) = some row := by
                  simp [hloose]
                rw [hPeq, if_pos hloose, head?_append_singleton, opt_orElse_assoc]
                simp
              · have hPeq : List.find? (fun r =>
                    pyIn q (clan_tag_u r) || pyIn q (clan_name_u r))
                    (row :: rest.filter clan_candidate)
                    = List.find? (fun r => pyIn q (clan_tag_u r) || pyIn q (clan_name_u r))
                      (rest.filter clan_candidate) := by
                  simp [hloose]
                rw [hPeq, if_neg hloose]

/-- C10: `find_clan_row` returns None on an empty query and otherwise
resolves the trimmed, uppercased query over the data rows in sheet order
(skipping header rows and rows with name and tag both blank) with the
claimed precedence: first tag-exact row (the scan stops there), then
first name-exact row, then first row where the query is a substring of
the tag or the name, else None. -/
theorem c10_find_clan_row_resolution :
    ∀ (query : String) (rows : List (List String)), (∀ r ∈ rows, 2 < r.length) →
      find_clan_row query rows =
        some (if query = "" then none
              else resolve_clan_query (pyUpper (pyStrip query)) rows) := by
  intro query rows h
  by_cases hq : query = ""
  · simp [find_clan_row, hq]
  · have hdrop : ∀ r ∈ rows.drop 1, 2 < r.length :=
      fun r hr => h r (List.mem_of_mem_drop hr)
    rw [show find_clan_row query rows
          = find_clan_loop (rows.drop 1) (pyUpper (pyStrip query)) none []
        from by simp [find_clan_row, hq]]
    rw [find_clan_loop_spec (rows.drop 1) (pyUpper (pyStrip query)) none [] hdrop]
    rw [if_neg hq]
    simp [resolve_clan_query]

/-- C10 witness: the theorem applied to a concrete sheet and the query
"phx", which resolves to the row with tag PHX. -/
theorem c10_witness :
    (∀ r ∈ ex_sheet, 2 < r.length)
    ∧ find_clan_row "phx" ex_sheet
        = some (if ("phx" : String) = "" then none
                else resolve_clan_query (pyUpper (pyStrip "phx")) ex_sheet)
    ∧ resolve_clan_query (pyUpper (pyStrip "phx")) ex_sheet = some ex_row_len28 :=
  ⟨by decide, c10_find_clan_row_resolution "phx" ex_sheet (by decide), by decide⟩

